import Mathlib

/-!
Shallow embedding of `src/incident_manager.py` (BlackRoad incident response
automation).  The SQLite-backed store is modelled as an in-memory list of
incident rows and alert rows; each `IncidentManager` method becomes a pure
function from a store (plus the values the Python code obtains from the
environment: `uuid.uuid4()` ids, `datetime.now().isoformat()` timestamps,
`datetime.now().weekday()`) to a result and an updated store.

Modelling decisions, each matching the source:
* A SQL `UPDATE ... WHERE id = ?` maps over all rows, rewriting those whose
  `id` column equals the argument; `cursor.rowcount > 0` is `0 < countP`.
* `json.dumps`/`json.loads` round-trip the `services` and `timeline` values
  written by this program, so serialized columns are modelled by the values
  themselves.
* A SQL `NULL` column is `Option.none`; `INSERT` in `create_incident` lists
  only eight columns, so `resolved_at` and `postmortem` start as `none`, and
  reading maps `row[9] or ""` to `Option.getD "" `.
* SQLite `strftime('%s', t)` (ISO-8601 text to epoch seconds) is treated as
  an uninterpreted function `epochSeconds : String → Int` supplied to
  `get_mttr`; SQL arithmetic on it is exact rational arithmetic.
* `ORDER BY created_at DESC` is an insertion sort that is descending in the
  `created_at` string.
-/

namespace IncidentResponse

/-- `TEAM` constant, line 18 of the source. -/
def TEAM : List String := ["alexa", "alice", "octavia", "aria", "shellfish"]

/-- One entry of an incident timeline: the dict appended by
`add_timeline_event`. -/
structure TimelineEvent where
  timestamp : String
  event : String
  author : String
deriving DecidableEq, Repr

/-- The `Incident` dataclass. -/
structure Incident where
  id : String
  title : String
  severity : String
  status : String
  assignee : String
  services : List String
  timeline : List TimelineEvent
  created_at : String
  resolved_at : Option String
  postmortem : String
deriving DecidableEq, Repr

/-- A row of the `incidents` table.  `resolved_at` and `postmortem` are
nullable columns (`Option`); the other columns are always written non-null
by this program. -/
structure IncidentRow where
  id : String
  title : String
  severity : String
  status : String
  assignee : String
  services : List String
  timeline : List TimelineEvent
  created_at : String
  resolved_at : Option String
  postmortem : Option String
deriving DecidableEq, Repr

/-- A row of the `alerts` table. -/
structure AlertRow where
  id : String
  source : String
  message : String
  severity : String
  fired_at : String
  incident_id : Option String
deriving DecidableEq, Repr

/-- The database state: the two tables, rows in insertion order. -/
structure Store where
  incidents : List IncidentRow
  alerts : List AlertRow
deriving DecidableEq, Repr

/-- The `WHERE id = ?` predicate on incident rows. -/
def rowMatches (incident_id : String) (r : IncidentRow) : Bool :=
  r.id == incident_id

/-- Decoding a fetched row into an `Incident`, as `get_incident` and
`get_active_incidents` do: `services`/`timeline` are json-decoded and
`postmortem` is `row[9] or ""` (NULL becomes the empty string). -/
def decodeRow (r : IncidentRow) : Incident :=
  { id := r.id, title := r.title, severity := r.severity, status := r.status,
    assignee := r.assignee, services := r.services, timeline := r.timeline,
    created_at := r.created_at, resolved_at := r.resolved_at,
    postmortem := r.postmortem.getD "" }

/-- `oncall_schedule`: `TEAM[day_of_week % len(TEAM)]` where `day_of_week`
is `datetime.now().weekday()`, passed explicitly here. -/
def oncall_schedule (day_of_week : Nat) : String :=
  TEAM.getD (day_of_week % TEAM.length) ""

/-- `create_incident`.  `incident_id` stands for `str(uuid.uuid4())[:8]`,
`now` for `datetime.now().isoformat()` and `day_of_week` for the weekday
used by `oncall_schedule`.  `services` is `Optional` with Python default
`None`; `services or []` replaces `None` (and the falsy empty list) by `[]`,
which `Option.getD []` matches on both cases.  The INSERT omits the
`resolved_at` and `postmortem` columns, leaving them NULL. -/
def create_incident (s : Store) (incident_id now : String) (day_of_week : Nat)
    (title severity : String) (services : Option (List String)) :
    Incident × Store :=
  let assignee := oncall_schedule day_of_week
  let svcs := services.getD []
  let incident : Incident :=
    { id := incident_id, title := title, severity := severity, status := "new",
      assignee := assignee, services := svcs, timeline := [],
      created_at := now, resolved_at := none, postmortem := "" }
  let row : IncidentRow :=
    { id := incident.id, title := incident.title, severity := incident.severity,
      status := incident.status, assignee := incident.assignee,
      services := incident.services, timeline := incident.timeline,
      created_at := incident.created_at, resolved_at := none,
      postmortem := none }
  (incident, { s with incidents := s.incidents ++ [row] })

/-- `assign`: `UPDATE incidents SET assignee = ? WHERE id = ?`; returns
`cursor.rowcount > 0`. -/
def assign (s : Store) (incident_id assignee : String) : Bool × Store :=
  let rowcount := s.incidents.countP (rowMatches incident_id)
  let updated := s.incidents.map fun r =>
    if r.id == incident_id then { r with assignee := assignee } else r
  (decide (0 < rowcount), { s with incidents := updated })

/-- `valid_statuses` local list inside `update_status`. -/
def valid_statuses : List String :=
  ["new", "investigating", "identified", "monitoring", "resolved"]

/-- `update_status`: returns `false` with no store access when `status` is
not in `valid_statuses`; otherwise `UPDATE incidents SET status = ? WHERE
id = ?` and returns `cursor.rowcount > 0`.  The `resolved_at` column is not
touched. -/
def update_status (s : Store) (incident_id status : String) : Bool × Store :=
  if status ∈ valid_statuses then
    let rowcount := s.incidents.countP (rowMatches incident_id)
    let updated := s.incidents.map fun r =>
      if r.id == incident_id then { r with status := status } else r
    (decide (0 < rowcount), { s with incidents := updated })
  else
    (false, s)

/-- `add_timeline_event`: `SELECT timeline ... WHERE id = ?` (first matching
row), `false` if absent, else append `{timestamp: now, event, author}` and
`UPDATE ... SET timeline = ? WHERE id = ?`. -/
def add_timeline_event (s : Store) (now incident_id event author : String) :
    Bool × Store :=
  match s.incidents.find? (rowMatches incident_id) with
  | none => (false, s)
  | some row =>
    let timeline := row.timeline ++
      [{ timestamp := now, event := event, author := author }]
    let updated := s.incidents.map fun r =>
      if r.id == incident_id then { r with timeline := timeline } else r
    (true, { s with incidents := updated })

/-- `resolve`: `UPDATE incidents SET status = 'resolved', resolved_at = now
WHERE id = ?`, unconditionally; returns `cursor.rowcount > 0`.  The
`resolution_notes` parameter is accepted and ignored, as in the source. -/
def resolve (s : Store) (now incident_id : String)
    (_resolution_notes : String) : Bool × Store :=
  let rowcount := s.incidents.countP (rowMatches incident_id)
  let updated := s.incidents.map fun r =>
    if r.id == incident_id then
      { r with status := "resolved", resolved_at := some now }
    else r
  (decide (0 < rowcount), { s with incidents := updated })

/-- The row filter of `get_mttr`: `status = 'resolved'`, and additionally
`severity = ?` when the Python-truthy check `if severity:` passes (a `None`
or empty-string filter applies no severity restriction). -/
def mttrMatches (severity : Option String) (r : IncidentRow) : Bool :=
  match severity with
  | some sv =>
    if sv ≠ "" then r.status == "resolved" && r.severity == sv
    else r.status == "resolved"
  | none => r.status == "resolved"

/-- The values averaged by `get_mttr`:
`(strftime('%s', resolved_at) - strftime('%s', created_at)) / 60.0` per
matching row.  `strftime('%s', NULL)` is NULL and SQL `AVG` skips NULL
inputs, hence the `filterMap` over `resolved_at`. -/
def mttrValues (epochSeconds : String → Int) (severity : Option String)
    (s : Store) : List ℚ :=
  (s.incidents.filter (mttrMatches severity)).filterMap fun r =>
    r.resolved_at.map fun ra =>
      ((epochSeconds ra - epochSeconds r.created_at : Int) : ℚ) / 60

/-- `get_mttr`: SQL `AVG` of `mttrValues` (NULL on the empty set), then
`row[0] or 0` — NULL becomes `0`, and a `0.0` average stays the same value.
`epochSeconds` is the uninterpreted `strftime('%s', ·)` conversion. -/
def get_mttr (epochSeconds : String → Int) (s : Store)
    (severity : Option String) : ℚ :=
  match mttrValues epochSeconds severity s with
  | [] => 0
  | v :: vs => ((v :: vs).sum) / ((v :: vs).length : ℚ)

/-- The `ORDER BY created_at DESC` ordering on incident rows: `a` comes
before `b` when `b.created_at ≤ a.created_at` in the byte-wise string order
SQLite's BINARY collation uses. -/
def createdDescOrder (a b : IncidentRow) : Prop :=
  b.created_at ≤ a.created_at

instance : DecidableRel createdDescOrder := fun a b =>
  inferInstanceAs (Decidable (b.created_at ≤ a.created_at))

instance : IsTotal IncidentRow createdDescOrder :=
  ⟨fun a b => le_total b.created_at a.created_at⟩

instance : IsTrans IncidentRow createdDescOrder :=
  ⟨fun _ _ _ h1 h2 => le_trans h2 h1⟩

/-- `get_active_incidents`: rows with `status != 'resolved'`, ordered by
`created_at` descending, decoded into `Incident` values. -/
def get_active_incidents (s : Store) : List Incident :=
  ((s.incidents.filter fun r =>
    r.status != "resolved").insertionSort createdDescOrder).map decodeRow

/-- `get_incident`: first row with the given id, decoded, or `none`. -/
def get_incident (s : Store) (incident_id : String) : Option Incident :=
  (s.incidents.find? (rowMatches incident_id)).map decodeRow

/-- `auto_create_from_alert`: `create_incident` with title
`"Alert: " + message`, then INSERT one alert row referencing the new
incident.  `alert_id`/`alert_now` stand for the second `uuid` and
`datetime.now()` call. -/
def auto_create_from_alert (s : Store) (incident_id now : String)
    (day_of_week : Nat) (alert_id alert_now alert_source message severity :
    String) : Incident × Store :=
  let p := create_incident s incident_id now day_of_week
    ("Alert: " ++ message) severity none
  let alert : AlertRow :=
    { id := alert_id, source := alert_source, message := message,
      severity := severity, fired_at := alert_now,
      incident_id := some p.1.id }
  (p.1, { p.2 with alerts := p.2.alerts ++ [alert] })

/-- Iterated `add_timeline_event`: one call per element of `calls`, each a
`(now, event, author)` triple, keeping only the store. -/
def addEvents (s : Store) (incident_id : String)
    (calls : List (String × String × String)) : Store :=
  calls.foldl
    (fun st c => (add_timeline_event st c.1 incident_id c.2.1 c.2.2).2) s

/-- The spec invariant: `resolved_at` is present iff `status = "resolved"`,
for every incident row of the store. -/
def StatusInv (s : Store) : Prop :=
  ∀ r ∈ s.incidents, (r.resolved_at.isSome = true ↔ r.status = "resolved")

instance : DecidablePred StatusInv := fun s =>
  inferInstanceAs (Decidable (∀ r ∈ s.incidents, _))

/-! ### Helper lemmas about the SQL `UPDATE ... WHERE id = ?` shape -/

/-- An UPDATE whose `WHERE id = ?` clause matches no row leaves the table
unchanged. -/
theorem map_update_eq_self (l : List IncidentRow) (incident_id : String)
    (f : IncidentRow → IncidentRow)
    (h : ∀ r ∈ l, r.id ≠ incident_id) :
    (l.map fun r => if r.id == incident_id then f r else r) = l := by
  induction l with
  | nil => rfl
  | cons x xs ih =>
    have hx : (x.id == incident_id) = false := by
      simpa using h x (List.mem_cons_self x xs)
    simp only [List.map_cons, hx, Bool.false_eq_true, if_false]
    rw [ih fun r hr => h r (List.mem_cons_of_mem x hr)]

/-- Finding a row by id after an id-preserving UPDATE is the UPDATE of the
row found before. -/
theorem find?_map_update (l : List IncidentRow) (incident_id : String)
    (f : IncidentRow → IncidentRow) (hf : ∀ r, (f r).id = r.id) :
    (l.map fun r => if r.id == incident_id then f r else r).find?
        (rowMatches incident_id)
      = (l.find? (rowMatches incident_id)).map
          fun r => if r.id == incident_id then f r else r := by
  rw [List.find?_map]
  have hcomp : (rowMatches incident_id ∘ fun r =>
      if r.id == incident_id then f r else r) = rowMatches incident_id := by
    funext r
    by_cases h : r.id = incident_id
    · simp [Function.comp, rowMatches, h, hf]
    · simp [Function.comp, rowMatches, h]
  rw [hcomp]

/-- `cursor.rowcount > 0` on a `WHERE id = ?` UPDATE is row-by-id
existence. -/
theorem countP_rowMatches_pos (l : List IncidentRow) (incident_id : String) :
    (0 < l.countP (rowMatches incident_id)) ↔ ∃ r ∈ l, r.id = incident_id := by
  rw [List.countP_pos_iff]
  simp [rowMatches]

/-! ### Concrete fixtures used by witness theorems -/

/-- A concrete unresolved incident row. -/
def sampleRow : IncidentRow :=
  { id := "i1", title := "db down", severity := "P1", status := "new",
    assignee := "alexa", services := ["db"], timeline := [],
    created_at := "2026-01-01T08:00:00", resolved_at := none,
    postmortem := none }

/-- A concrete resolved incident row. -/
def sampleResolvedRow : IncidentRow :=
  { id := "i2", title := "api slow", severity := "P2", status := "resolved",
    assignee := "alice", services := [], timeline := [],
    created_at := "2026-01-02T08:00:00",
    resolved_at := some "2026-01-02T09:00:00", postmortem := none }

/-- A concrete store holding the two rows above. -/
def sampleStore : Store :=
  { incidents := [sampleRow, sampleResolvedRow], alerts := [] }

/-! ### Claims -/

/-- C2: for every status string outside the five-member valid set,
`update_status` returns `false` and performs no store operation: the whole
returned state is the input state, so in particular every stored status is
unchanged. -/
theorem update_status_invalid_noop (s : Store) (incident_id status : String)
    (h : status ∉ valid_statuses) :
    update_status s incident_id status = (false, s) := by
  simp [update_status, h]

/-- Witness for C2: `update_status sampleStore "i1" "bogus"` returns
`false` and leaves the store — hence the stored status of `"i1"` —
unchanged. -/
theorem update_status_invalid_noop_witness :
    "bogus" ∉ valid_statuses ∧
      update_status sampleStore "i1" "bogus" = (false, sampleStore) :=
  ⟨by decide, update_status_invalid_noop sampleStore "i1" "bogus" (by decide)⟩

/-- C6: `oncall_schedule` is a pure function of the day of week: it indexes
the fixed roster at `day % TEAM.length`, is periodic with the roster size,
and two days congruent modulo the roster size get the same person. -/
theorem oncall_schedule_rotation (day : Nat) :
    oncall_schedule day = TEAM.getD (day % TEAM.length) "" ∧
    oncall_schedule (day + TEAM.length) = oncall_schedule day ∧
    ∀ d2 : Nat, day % TEAM.length = d2 % TEAM.length →
      oncall_schedule day = oncall_schedule d2 := by
  refine ⟨rfl, ?_, ?_⟩
  · simp [oncall_schedule, Nat.add_mod_right]
  · intro d2 h
    simp [oncall_schedule, h]

/-- Witness for C6 at day 8 (a Wednesday index): `8 % 5 = 3`, so the
on-call person is `TEAM[3] = "aria"`, the same as on day 3, and day 13
repeats day 8. -/
theorem oncall_schedule_rotation_witness :
    oncall_schedule 8 = "aria" ∧
      oncall_schedule (8 + TEAM.length) = oncall_schedule 8 ∧
      oncall_schedule 8 = oncall_schedule 3 :=
  ⟨by decide, (oncall_schedule_rotation 8).2.1,
    (oncall_schedule_rotation 8).2.2 3 (by decide)⟩

/-- C10: `update_status` returns the same `false` both for a status outside
the valid set (with any id) and for a valid status with an unknown id, so
the boolean alone cannot distinguish validation failure from not-found. -/
theorem update_status_false_ambiguous (s : Store) (incident_id status : String) :
    (status ∉ valid_statuses →
      (update_status s incident_id status).1 = false) ∧
    ((∀ r ∈ s.incidents, r.id ≠ incident_id) →
      (update_status s incident_id status).1 = false) := by
  constructor
  · intro h
    simp [update_status, h]
  · intro h
    by_cases hv : status ∈ valid_statuses
    · simp only [update_status, hv, if_pos, decide_eq_false_iff_not]
      intro hpos
      obtain ⟨r, hr, hid⟩ := (countP_rowMatches_pos s.incidents incident_id).1 hpos
      exact h r hr hid
    · simp [update_status, hv]

/-- Witness for C10: on the sample store, `update_status` returns `false`
both for the invalid status `"bogus"` on a known id and for the valid
status `"monitoring"` on the unknown id `"zz"`. -/
theorem update_status_false_ambiguous_witness :
    (update_status sampleStore "i1" "bogus").1 = false ∧
      (update_status sampleStore "zz" "monitoring").1 = false :=
  ⟨(update_status_false_ambiguous sampleStore "i1" "bogus").1 (by decide),
    (update_status_false_ambiguous sampleStore "zz" "monitoring").2 (by decide)⟩

/-- If a map preserves each row's `resolved_at`/`status` pair or
re-establishes the invariant on it, the per-row invariant survives. -/
theorem statusInv_of_map (l : List IncidentRow)
    (h : ∀ r ∈ l, (r.resolved_at.isSome = true ↔ r.status = "resolved"))
    (f : IncidentRow → IncidentRow)
    (hf : ∀ r ∈ l,
      ((f r).resolved_at.isSome = true ↔ (f r).status = "resolved") ∨
      ((f r).resolved_at = r.resolved_at ∧ (f r).status = r.status)) :
    ∀ r ∈ l.map f, (r.resolved_at.isSome = true ↔ r.status = "resolved") := by
  intro r hr
  obtain ⟨r', hr', rfl⟩ := List.mem_map.1 hr
  rcases hf r' hr' with h1 | ⟨h2, h3⟩
  · exact h1
  · rw [h2, h3]
    exact h r' hr'

/-- C1 counterexample: starting from the empty database, one
`create_incident` reaches a state satisfying the invariant (`resolved_at`
present iff `status = "resolved"`), yet the Lifecycle Service operation
`update_status _ "i1" "resolved"` breaks it there: it writes only the
`status` column, leaving `resolved_at` NULL on a now-"resolved"
incident. -/
theorem statusInv_broken_by_update_status :
    StatusInv (create_incident { incidents := [], alerts := [] } "i1"
      "2026-01-01T08:00:00" 0 "db down" "P1" none).2 ∧
    ¬ StatusInv (update_status
      (create_incident { incidents := [], alerts := [] } "i1"
        "2026-01-01T08:00:00" 0 "db down" "P1" none).2 "i1" "resolved").2 := by
  constructor
  · decide
  · decide

/-- C1 (amended): every Lifecycle Service operation except `update_status`
— `create_incident`, `assign`, `add_timeline_event`, `resolve`,
`auto_create_from_alert` — preserves the invariant that `resolved_at` is
present iff `status = "resolved"`. -/
theorem statusInv_preserved (s : Store) (h : StatusInv s) :
    (∀ incident_id now day_of_week title severity services,
      StatusInv
        (create_incident s incident_id now day_of_week title severity
          services).2) ∧
    (∀ incident_id assignee, StatusInv (assign s incident_id assignee).2) ∧
    (∀ now incident_id event author,
      StatusInv (add_timeline_event s now incident_id event author).2) ∧
    (∀ now incident_id notes,
      StatusInv (resolve s now incident_id notes).2) ∧
    (∀ incident_id now day_of_week alert_id alert_now src msg severity,
      StatusInv
        (auto_create_from_alert s incident_id now day_of_week alert_id
          alert_now src msg severity).2) := by
  have hcreate : ∀ incident_id now day_of_week title severity services,
      StatusInv
        (create_incident s incident_id now day_of_week title severity
          services).2 := by
    intro incident_id now day_of_week title severity services r hr
    rcases List.mem_append.1 hr with h1 | h2
    · exact h r h1
    · simp only [List.mem_singleton] at h2
      subst h2
      simp
  refine ⟨hcreate, ?_, ?_, ?_, ?_⟩
  · intro incident_id assignee r hr
    refine statusInv_of_map s.incidents h _ ?_ r hr
    intro r' _
    right
    by_cases hid : r'.id = incident_id <;> simp [hid]
  · intro now incident_id event author r hr
    unfold add_timeline_event at hr
    rcases hfind : s.incidents.find? (rowMatches incident_id) with _ | row
    · rw [hfind] at hr
      exact h r hr
    · rw [hfind] at hr
      refine statusInv_of_map s.incidents h _ ?_ r hr
      intro r' _
      right
      by_cases hid : r'.id = incident_id <;> simp [hid]
  · intro now incident_id notes r hr
    refine statusInv_of_map s.incidents h _ ?_ r hr
    intro r' _
    by_cases hid : r'.id = incident_id
    · left
      simp [hid]
    · right
      simp [hid]
  · intro incident_id now day_of_week alert_id alert_now src msg severity r hr
    exact hcreate incident_id now day_of_week _ severity none r hr

/-- Witness for C1 (amended): resolving `"i1"` in the sample store, which
satisfies the invariant, yields a store that still satisfies it. -/
theorem statusInv_preserved_witness :
    StatusInv (resolve sampleStore "2026-01-03T00:00:00" "i1" "").2 :=
  (statusInv_preserved sampleStore (by decide)).2.2.2.1
    "2026-01-03T00:00:00" "i1" ""

/-- C3: `create_incident` returns an incident with status `"new"`, empty
timeline, absent `resolved_at`, the call-time timestamp as `created_at`,
the on-call person for the day as `assignee`, and the argument `services`;
the persisted row is appended to the table and decodes to exactly the
returned incident, so the fresh id looks it up. -/
theorem create_incident_spec (s : Store) (incident_id now : String)
    (day_of_week : Nat) (title severity : String) (services : List String)
    (hfresh : ∀ r ∈ s.incidents, r.id ≠ incident_id) :
    (create_incident s incident_id now day_of_week title severity
        (some services)).1 =
      { id := incident_id, title := title, severity := severity,
        status := "new", assignee := oncall_schedule day_of_week,
        services := services, timeline := [], created_at := now,
        resolved_at := none, postmortem := "" } ∧
    (∃ row,
      (create_incident s incident_id now day_of_week title severity
          (some services)).2.incidents = s.incidents ++ [row] ∧
      decodeRow row =
        (create_incident s incident_id now day_of_week title severity
            (some services)).1) ∧
    get_incident
        (create_incident s incident_id now day_of_week title severity
          (some services)).2 incident_id =
      some (create_incident s incident_id now day_of_week title severity
        (some services)).1 := by
  refine ⟨rfl, ⟨_, rfl, rfl⟩, ?_⟩
  have hnone : s.incidents.find? (rowMatches incident_id) = none :=
    List.find?_eq_none.2 (by
      intro r hr
      simpa [rowMatches] using hfresh r hr)
  simp only [get_incident, create_incident, List.find?_append, hnone,
    Option.none_or]
  simp [rowMatches, decodeRow]

/-- Witness for C3: creating an incident in the sample store under a fresh
id yields exactly the expected incident and it is immediately readable. -/
theorem create_incident_spec_witness :
    (create_incident sampleStore "i3" "2026-02-01T10:00:00" 2 "cache cold"
        "P3" (some ["cache"])).1 =
      { id := "i3", title := "cache cold", severity := "P3", status := "new",
        assignee := oncall_schedule 2, services := ["cache"], timeline := [],
        created_at := "2026-02-01T10:00:00", resolved_at := none,
        postmortem := "" } ∧
    get_incident
        (create_incident sampleStore "i3" "2026-02-01T10:00:00" 2 "cache cold"
          "P3" (some ["cache"])).2 "i3" =
      some (create_incident sampleStore "i3" "2026-02-01T10:00:00" 2
        "cache cold" "P3" (some ["cache"])).1 :=
  ⟨(create_incident_spec sampleStore "i3" "2026-02-01T10:00:00" 2 "cache cold"
      "P3" ["cache"] (by decide)).1,
    (create_incident_spec sampleStore "i3" "2026-02-01T10:00:00" 2 "cache cold"
      "P3" ["cache"] (by decide)).2.2⟩

/-- C4: `resolve` on an unknown id returns `false` and changes nothing; on
an existing id it returns `true` and the subsequent lookup shows the same
incident with status `"resolved"` and `resolved_at` freshly stamped to the
call time — unconditionally, also when the incident was already resolved —
and when the clock is monotone (`created_at ≤ now`) the stamped
`resolved_at` is at least `created_at`. -/
theorem resolve_spec (s : Store) (now incident_id notes : String) :
    ((∀ r ∈ s.incidents, r.id ≠ incident_id) →
      resolve s now incident_id notes = (false, s)) ∧
    (∀ inc, get_incident s incident_id = some inc →
      (resolve s now incident_id notes).1 = true ∧
      get_incident (resolve s now incident_id notes).2 incident_id =
        some { inc with status := "resolved", resolved_at := some now } ∧
      (inc.created_at ≤ now → ∃ t,
        ({ inc with status := "resolved", resolved_at := some now } :
          Incident).resolved_at = some t ∧ inc.created_at ≤ t)) := by
  constructor
  · intro h
    have hc : s.incidents.countP (rowMatches incident_id) = 0 :=
      List.countP_eq_zero.2 (by
        intro r hr
        simpa [rowMatches] using h r hr)
    have hmap := map_update_eq_self s.incidents incident_id
      (fun r => { r with status := "resolved", resolved_at := some now }) h
    simp only [resolve, hc, hmap]
    rfl
  · intro inc hinc
    obtain ⟨row, hfind, hdec⟩ := Option.map_eq_some'.1 hinc
    have hmem : row ∈ s.incidents := List.mem_of_find?_eq_some hfind
    have hid : row.id = incident_id := by
      simpa [rowMatches] using List.find?_some hfind
    refine ⟨?_, ?_, ?_⟩
    · simp only [resolve, decide_eq_true_eq]
      exact (countP_rowMatches_pos s.incidents incident_id).2
        ⟨row, hmem, hid⟩
    · have hupd := find?_map_update s.incidents incident_id
        (fun r => { r with status := "resolved", resolved_at := some now })
        (fun r => rfl)
      simp only [get_incident, resolve, hupd, hfind, Option.map_some']
      have hbeq : (row.id == incident_id) = true := by
        simp [hid]
      simp only [hbeq, if_pos]
      rw [← hdec]
      rfl
    · intro hle
      exact ⟨now, rfl, hle⟩

/-- The incident of `sampleRow` as the service reads it. -/
def sampleIncident : Incident := decodeRow sampleRow

/-- `sampleIncident` after being resolved at `2026-01-03T00:00:00`. -/
def sampleIncidentResolved : Incident :=
  { sampleIncident with
    status := "resolved",
    resolved_at := some "2026-01-03T00:00:00" }

/-- Witness for C4: resolving the unknown id `"zz"` in the sample store
returns `false` and changes nothing; resolving the known id `"i1"` returns
`true`, the lookup shows it resolved with the new stamp, and the stamp is
at least its `created_at`. -/
theorem resolve_spec_witness :
    resolve sampleStore "2026-01-03T00:00:00" "zz" "" =
      (false, sampleStore) ∧
    (resolve sampleStore "2026-01-03T00:00:00" "i1" "").1 = true ∧
    get_incident (resolve sampleStore "2026-01-03T00:00:00" "i1" "").2 "i1" =
      some sampleIncidentResolved ∧
    (∃ t, sampleIncidentResolved.resolved_at = some t ∧
      sampleIncident.created_at ≤ t) :=
  ⟨(resolve_spec sampleStore "2026-01-03T00:00:00" "zz" "").1 (by decide),
    ((resolve_spec sampleStore "2026-01-03T00:00:00" "i1" "").2
      sampleIncident (by decide)).1,
    ((resolve_spec sampleStore "2026-01-03T00:00:00" "i1" "").2
      sampleIncident (by decide)).2.1,
    ((resolve_spec sampleStore "2026-01-03T00:00:00" "i1" "").2
      sampleIncident (by decide)).2.2 (by
        rw [String.le_iff_toList_le]
        decide)⟩

/-- One `add_timeline_event` call on an existing incident, observed through
`get_incident`: it succeeds and appends exactly one entry. -/
theorem add_timeline_event_get (s : Store)
    (now incident_id event author : String) (inc : Incident)
    (hinc : get_incident s incident_id = some inc) :
    (add_timeline_event s now incident_id event author).1 = true ∧
    get_incident (add_timeline_event s now incident_id event author).2
        incident_id =
      some { inc with timeline := inc.timeline ++
        [{ timestamp := now, event := event, author := author }] } := by
  obtain ⟨row, hfind, hdec⟩ := Option.map_eq_some'.1 hinc
  have hid : row.id = incident_id := by
    simpa [rowMatches] using List.find?_some hfind
  constructor
  · simp [add_timeline_event, hfind]
  · have hupd := find?_map_update s.incidents incident_id
      (fun r => { r with timeline := row.timeline ++
        [{ timestamp := now, event := event, author := author }] })
      (fun r => rfl)
    simp only [add_timeline_event, hfind, get_incident, hupd,
      Option.map_some']
    have hbeq : (row.id == incident_id) = true := by
      simp [hid]
    simp only [hbeq, if_pos]
    rw [← hdec]
    rfl

/-- Iterating `add_timeline_event` appends the events of the calls, in call
order, to the existing timeline. -/
theorem addEvents_get (incident_id : String)
    (calls : List (String × String × String)) :
    ∀ s inc, get_incident s incident_id = some inc →
      get_incident (addEvents s incident_id calls) incident_id =
        some { inc with timeline := inc.timeline ++ calls.map fun c =>
          { timestamp := c.1, event := c.2.1, author := c.2.2 } } := by
  induction calls with
  | nil =>
    intro s inc h
    simp only [addEvents, List.foldl_nil, List.map_nil, List.append_nil]
    exact h
  | cons c cs ih =>
    intro s inc h
    have hstep := add_timeline_event_get s c.1 incident_id c.2.1 c.2.2 inc h
    have htail := ih (add_timeline_event s c.1 incident_id c.2.1 c.2.2).2
      _ hstep.2
    simp only [addEvents, List.foldl_cons] at htail ⊢
    rw [htail]
    simp only [List.map_cons, List.append_assoc, List.singleton_append]

/-- C8: `add_timeline_event` on an unknown id returns `false` with the
store untouched; on a known id it returns `true` and appends exactly one
`{timestamp, event, author}` entry after all prior entries; N sequential
calls append the N events in call order, so the timeline length grows by
N and the i-th appended entry's fields match the i-th call. -/
theorem add_timeline_event_spec (s : Store)
    (now incident_id event author : String) :
    (s.incidents.find? (rowMatches incident_id) = none →
      add_timeline_event s now incident_id event author = (false, s)) ∧
    (∀ inc, get_incident s incident_id = some inc →
      (add_timeline_event s now incident_id event author).1 = true ∧
      get_incident (add_timeline_event s now incident_id event author).2
          incident_id =
        some { inc with timeline := inc.timeline ++
          [{ timestamp := now, event := event, author := author }] }) ∧
    (∀ inc calls, get_incident s incident_id = some inc →
      ∃ inc', get_incident (addEvents s incident_id calls) incident_id =
          some inc' ∧
        inc'.timeline = inc.timeline ++ (calls.map fun c =>
          { timestamp := c.1, event := c.2.1, author := c.2.2 }) ∧
        inc'.timeline.length = inc.timeline.length + calls.length) := by
  refine ⟨?_, ?_, ?_⟩
  · intro h
    simp [add_timeline_event, h]
  · intro inc h
    exact add_timeline_event_get s now incident_id event author inc h
  · intro inc calls h
    refine ⟨_, addEvents_get incident_id calls s inc h, rfl, ?_⟩
    simp

/-- Witness for C8: on the sample store an add to the unknown id `"zz"`
fails with the store unchanged; an add to `"i1"` succeeds and appends the
entry; two sequential adds to `"i1"` yield exactly those two entries in
call order. -/
theorem add_timeline_event_spec_witness :
    add_timeline_event sampleStore "t1" "zz" "e1" "alice" =
      (false, sampleStore) ∧
    ((add_timeline_event sampleStore "t1" "i1" "e1" "alice").1 = true ∧
      get_incident (add_timeline_event sampleStore "t1" "i1" "e1" "alice").2
          "i1" =
        some { sampleIncident with timeline := sampleIncident.timeline ++
          [{ timestamp := "t1", event := "e1", author := "alice" }] }) ∧
    (∃ inc',
      get_incident
          (addEvents sampleStore "i1" [("t1", "e1", "alice"),
            ("t2", "e2", "aria")]) "i1" = some inc' ∧
      inc'.timeline = sampleIncident.timeline ++
        ([("t1", "e1", "alice"), ("t2", "e2", "aria")].map fun c =>
          { timestamp := c.1, event := c.2.1, author := c.2.2 }) ∧
      inc'.timeline.length = sampleIncident.timeline.length + 2) :=
  ⟨(add_timeline_event_spec sampleStore "t1" "zz" "e1" "alice").1 (by decide),
    (add_timeline_event_spec sampleStore "t1" "i1" "e1" "alice").2.1
      sampleIncident (by decide),
    (add_timeline_event_spec sampleStore "t1" "i1" "e1" "alice").2.2
      sampleIncident [("t1", "e1", "alice"), ("t2", "e2", "aria")]
      (by decide)⟩

/-- Row-by-row frame condition for an operation targeting `incident_id`:
every row keeps its `id`, `title`, `created_at` and `services`, and a row
with a different id is entirely unchanged. -/
def framePreserved (incident_id : String) (old upd : List IncidentRow) :
    Prop :=
  List.Forall₂ (fun r r' => r'.id = r.id ∧ r'.title = r.title ∧
    r'.created_at = r.created_at ∧ r'.services = r.services ∧
    (r.id ≠ incident_id → r' = r)) old upd

/-- The frame condition holds trivially for an untouched table. -/
theorem framePreserved_refl (incident_id : String) (l : List IncidentRow) :
    framePreserved incident_id l l :=
  List.forall₂_same.2 fun _ _ => ⟨rfl, rfl, rfl, rfl, fun _ => rfl⟩

/-- A `WHERE id = ?` UPDATE whose per-row rewrite keeps `id`, `title`,
`created_at` and `services` satisfies the frame condition. -/
theorem framePreserved_map (incident_id : String) (l : List IncidentRow)
    (f : IncidentRow → IncidentRow)
    (hf : ∀ r, (f r).id = r.id ∧ (f r).title = r.title ∧
      (f r).created_at = r.created_at ∧ (f r).services = r.services) :
    framePreserved incident_id l
      (l.map fun r => if r.id == incident_id then f r else r) := by
  induction l with
  | nil => exact List.Forall₂.nil
  | cons x xs ih =>
    refine List.Forall₂.cons ?_ ih
    by_cases h : x.id = incident_id
    · have hbeq : (x.id == incident_id) = true := by
        simp [h]
      simp only [hbeq, if_pos]
      exact ⟨(hf x).1, (hf x).2.1, (hf x).2.2.1, (hf x).2.2.2,
        fun hne => absurd h hne⟩
    · have hbeq : (x.id == incident_id) = false := by
        simp [h]
      simp [hbeq]

/-- C9: each post-creation operation — `assign`, `update_status`,
`add_timeline_event`, `resolve` — leaves every incident's `id`, `title`,
`created_at` and `services` unchanged, and leaves every incident whose id
differs from the operated-on id entirely unchanged. -/
theorem frame_spec (s : Store) (incident_id : String) :
    (∀ assignee, framePreserved incident_id s.incidents
      (assign s incident_id assignee).2.incidents) ∧
    (∀ status, framePreserved incident_id s.incidents
      (update_status s incident_id status).2.incidents) ∧
    (∀ now event author, framePreserved incident_id s.incidents
      (add_timeline_event s now incident_id event author).2.incidents) ∧
    (∀ now notes, framePreserved incident_id s.incidents
      (resolve s now incident_id notes).2.incidents) := by
  refine ⟨?_, ?_, ?_, ?_⟩
  · intro assignee
    exact framePreserved_map incident_id s.incidents _
      (fun r => ⟨rfl, rfl, rfl, rfl⟩)
  · intro status
    by_cases hv : status ∈ valid_statuses
    · simp only [update_status, hv, if_pos]
      exact framePreserved_map incident_id s.incidents _
        (fun r => ⟨rfl, rfl, rfl, rfl⟩)
    · simp only [update_status, hv, if_neg, not_false_iff]
      exact framePreserved_refl incident_id s.incidents
  · intro now event author
    rcases hfind : s.incidents.find? (rowMatches incident_id) with _ | row
    · simp only [add_timeline_event, hfind]
      exact framePreserved_refl incident_id s.incidents
    · simp only [add_timeline_event, hfind]
      exact framePreserved_map incident_id s.incidents _
        (fun r => ⟨rfl, rfl, rfl, rfl⟩)
  · intro now notes
    exact framePreserved_map incident_id s.incidents _
      (fun r => ⟨rfl, rfl, rfl, rfl⟩)

/-- Witness for C9: frame condition instances on the sample store for a
reassignment, a status update, a timeline append and a resolution of
`"i1"`. -/
theorem frame_spec_witness :
    framePreserved "i1" sampleStore.incidents
      (assign sampleStore "i1" "octavia").2.incidents ∧
    framePreserved "i1" sampleStore.incidents
      (update_status sampleStore "i1" "monitoring").2.incidents ∧
    framePreserved "i1" sampleStore.incidents
      (add_timeline_event sampleStore "t1" "i1" "e1" "alice").2.incidents ∧
    framePreserved "i1" sampleStore.incidents
      (resolve sampleStore "2026-01-03T00:00:00" "i1" "").2.incidents :=
  ⟨(frame_spec sampleStore "i1").1 "octavia",
    (frame_spec sampleStore "i1").2.1 "monitoring",
    (frame_spec sampleStore "i1").2.2.1 "t1" "e1" "alice",
    (frame_spec sampleStore "i1").2.2.2 "2026-01-03T00:00:00" ""⟩

/-- C7: `get_active_incidents` never includes a resolved incident, is
ordered by `created_at` descending, and contains exactly the non-resolved
rows of the table (as a permutation of their decoded forms). -/
theorem get_active_incidents_spec (s : Store) :
    (∀ inc ∈ get_active_incidents s, ¬ inc.status = "resolved") ∧
    (get_active_incidents s).Pairwise
      (fun a b => b.created_at ≤ a.created_at) ∧
    (get_active_incidents s).Perm
      ((s.incidents.filter fun r => r.status != "resolved").map decodeRow)
    := by
  refine ⟨?_, ?_, ?_⟩
  · intro inc hmem
    simp only [get_active_incidents, List.mem_map] at hmem
    obtain ⟨r, hr, rfl⟩ := hmem
    have hrf : r ∈ s.incidents.filter fun r => r.status != "resolved" := by
      simpa using hr
    have hs := (List.mem_filter.1 hrf).2
    simpa [decodeRow] using hs
  · have hs := List.sorted_insertionSort createdDescOrder
      (s.incidents.filter fun r => r.status != "resolved")
    simp only [get_active_incidents, List.pairwise_map]
    exact hs.imp fun h => h
  · exact (List.perm_insertionSort createdDescOrder
      (s.incidents.filter fun r => r.status != "resolved")).map decodeRow

/-- Witness for C7: on the sample store the active list is exactly the one
unresolved incident, and the theorem certifies it is not resolved. -/
theorem get_active_incidents_spec_witness :
    sampleIncident ∈ get_active_incidents sampleStore ∧
      ¬ sampleIncident.status = "resolved" :=
  ⟨by decide,
    (get_active_incidents_spec sampleStore).1 sampleIncident (by decide)⟩

/-- C5: `get_mttr` returns `0` (a total rational value, never NULL or NaN)
whenever no stored incident has status `"resolved"` and matches the
optional severity filter; and on a store whose matching resolved rows are
exactly one incident with known `created_at` and `resolved_at`, it returns
exactly the elapsed seconds between them divided by 60, i.e. the elapsed
minutes. -/
theorem get_mttr_spec (epochSeconds : String → Int) (s : Store)
    (severity : Option String) :
    ((∀ r ∈ s.incidents, mttrMatches severity r = false) →
      get_mttr epochSeconds s severity = 0) ∧
    (∀ r ra, s.incidents.filter (mttrMatches severity) = [r] →
      r.resolved_at = some ra →
      get_mttr epochSeconds s severity =
        ((epochSeconds ra - epochSeconds r.created_at : Int) : ℚ) / 60) := by
  constructor
  · intro h
    have hf : s.incidents.filter (mttrMatches severity) = [] :=
      List.filter_eq_nil_iff.2 (by
        intro r hr
        simp [h r hr])
    have hvals : mttrValues epochSeconds severity s = [] := by
      unfold mttrValues
      rw [hf]
      rfl
    simp only [get_mttr, hvals]
  · intro r ra hfilter hra
    have hvals : mttrValues epochSeconds severity s =
        [((epochSeconds ra - epochSeconds r.created_at : Int) : ℚ) / 60] := by
      unfold mttrValues
      rw [hfilter]
      simp [hra]
    simp only [get_mttr, hvals]
    simp

/-- A concrete stand-in for SQLite's `strftime('%s', ·)` used by the C5
witness: the resolution stamp of `sampleResolvedRow` is one hour (3600
seconds) after its creation stamp. -/
def sampleEpoch : String → Int := fun t =>
  if t = "2026-01-02T09:00:00" then 3660 else 60

/-- A store with no resolved incident. -/
def sampleActiveStore : Store := { incidents := [sampleRow], alerts := [] }

/-- Witness for C5: with no resolved incident the MTTR is `0`; with exactly
the single resolved sample incident it is the elapsed `3600` seconds over
`60`, i.e. `60` minutes. -/
theorem get_mttr_spec_witness :
    get_mttr sampleEpoch sampleActiveStore none = 0 ∧
    get_mttr sampleEpoch sampleStore none =
      ((sampleEpoch "2026-01-02T09:00:00" -
        sampleEpoch sampleResolvedRow.created_at : Int) : ℚ) / 60 ∧
    ((sampleEpoch "2026-01-02T09:00:00" -
      sampleEpoch sampleResolvedRow.created_at : Int) : ℚ) / 60 = 60 :=
  ⟨(get_mttr_spec sampleEpoch sampleActiveStore none).1 (by decide),
    (get_mttr_spec sampleEpoch sampleStore none).2 sampleResolvedRow
      "2026-01-02T09:00:00" (by decide) rfl,
    by
      have h : ("2026-01-02T08:00:00" : String) ≠ "2026-01-02T09:00:00" := by
        decide
      norm_num [sampleEpoch, sampleResolvedRow, h]⟩

end IncidentResponse
